import Mathlib

/-!
Verification of the KISS static-file server (src/main.rs) against its
natural-language specification.

The embedding works over byte strings modelled as `List Nat` (each element a
byte value).  Rust `u32` arithmetic is modelled as `Nat` arithmetic reduced
modulo `2 ^ 32` exactly where the source wraps (`wrapping_mul`).  `SystemTime`
values are modelled as whole seconds since the epoch (`Nat`): the cache builder
truncates every timestamp to second precision before storing it, and the
HTTP-date collaborator (`httpdate`) works at second granularity.  The
`httpdate::parse_http_date` collaborator (composed with the `str::from_utf8`
check in front of it) is an external crate, so functions that need it take a
parameter `pf : List Nat → Option Nat` mapping the raw header bytes to the
parsed timestamp (`none` models either invalid UTF-8 or an unparseable date).
`FxHashMap` is modelled as an association list with first-match lookup and
front insertion, which realises the overwrite semantics of `HashMap::insert`.
-/

/-- Bytes of an ASCII string literal (`str::as_bytes`). -/
def stringBytes (s : String) : List Nat :=
  s.data.map Char.toNat

/-- Decimal formatting of an integer, as Rust `format!` does. -/
def natToBytes (n : Nat) : List Nat :=
  stringBytes (toString n)

/- ---------------------------------------------------------------------
   PathTrie: path normalization, FNV-1a hashing, insert, get
   (src/main.rs lines 42-128)
--------------------------------------------------------------------- -/

/-- `FNV_OFFSET_BASIS` from `PathTrie::normalize_path_hash`. -/
def FNV_OFFSET_BASIS : Nat := 2166136261

/-- `FNV_PRIME` from `PathTrie::normalize_path_hash`. -/
def FNV_PRIME : Nat := 16777619

/-- One step of the FNV-1a loop: `hash ^= byte; hash = hash.wrapping_mul(FNV_PRIME)`. -/
def fnvStep (h b : Nat) : Nat :=
  ((h ^^^ b) * FNV_PRIME) % 2 ^ 32

/-- The FNV-1a accumulation loop over a byte slice. -/
def fnvFold (h : Nat) (bs : List Nat) : Nat :=
  bs.foldl fnvStep h

/-- Index of the first `b'?'` (byte 63) in the path, or the length when absent:
the `for (i, &byte)` scan in `normalize_path_hash` that sets `end_pos`. -/
def find_query_pos : List Nat → Nat
  | [] => 0
  | b :: rest => if b = 63 then 0 else find_query_pos rest + 1

/-- `PathTrie::normalize_path_hash` (src/main.rs lines 61-91): truncate at the
first `?`, strip one trailing `/` when `end_pos > 1` (recording that the path
was directory-style), and FNV-1a-hash the remaining bytes. -/
def normalize_path_hash (path : List Nat) : Nat × Bool :=
  let end0 := find_query_pos path
  if end0 > 1 ∧ path.getD (end0 - 1) 0 = 47 then
    (fnvFold FNV_OFFSET_BASIS (path.take (end0 - 1)), true)
  else
    (fnvFold FNV_OFFSET_BASIS (path.take end0), false)

/-- A cache entry (struct `CacheEntry`, src/main.rs lines 26-39).  The three
response buffers are byte strings; `etag` holds the bytes of the ETag string
(the source stores `Arc<str>` and compares `etag.as_bytes()`). -/
structure CacheEntry where
  complete_response : List Nat
  headers_only : List Nat
  not_modified_response : List Nat
  etag : List Nat
  last_modified_timestamp : Nat
deriving DecidableEq, Repr

/-- First-match association-list lookup, modelling `FxHashMap::get`. -/
def assocFind (k : Nat) : List (Nat × CacheEntry) → Option CacheEntry
  | [] => none
  | (k', v) :: rest => if k = k' then some v else assocFind k rest

/-- Front insertion, modelling `FxHashMap::insert` (later inserts shadow
earlier ones under first-match lookup). -/
def assocInsert (k : Nat) (v : CacheEntry) (m : List (Nat × CacheEntry)) :
    List (Nat × CacheEntry) :=
  (k, v) :: m

/-- Struct `PathTrie` (src/main.rs lines 42-48). -/
structure PathTrie where
  exact_matches : List (Nat × CacheEntry)
  index_entries : List (Nat × CacheEntry)
deriving DecidableEq, Repr

/-- `PathTrie::new`. -/
def PathTrie.new : PathTrie :=
  { exact_matches := [], index_entries := [] }

/-- `PathTrie::insert` (src/main.rs lines 93-105): always store in
`exact_matches`; when the path ends in `/index.html`, additionally register the
entry in `index_entries` under the hash of the parent directory path. -/
def PathTrie.insert (t : PathTrie) (path : List Nat) (entry : CacheEntry) :
    PathTrie :=
  let h := (normalize_path_hash path).1
  let t1 : PathTrie :=
    { t with exact_matches := assocInsert h entry t.exact_matches }
  if (stringBytes "/index.html").isSuffixOf path then
    let dir_path := path.take (path.length - 11)
    let dh := (normalize_path_hash dir_path).1
    { t1 with index_entries := assocInsert dh entry t1.index_entries }
  else t1

/-- `PathTrie::get` (src/main.rs lines 107-123): exact match first; for
directory-style paths or the literal path `/`, retry against `index_entries`. -/
def PathTrie.get (t : PathTrie) (path : List Nat) : Option CacheEntry :=
  let hd := normalize_path_hash path
  match assocFind hd.1 t.exact_matches with
  | some entry => some entry
  | none =>
      if hd.2 = true ∨ path = stringBytes "/" then
        assocFind hd.1 t.index_entries
      else none

/- ---------------------------------------------------------------------
   Cache builder: generate_file_metadata (src/main.rs lines 495-555)
--------------------------------------------------------------------- -/

/-- Struct `FileMetadata` (src/main.rs lines 195-202). -/
structure FileMetadata where
  complete_response : List Nat
  headers_only : List Nat
  not_modified_response : List Nat
  etag : List Nat
  last_modified_timestamp : Nat
deriving DecidableEq, Repr

/-- `generate_file_metadata` (src/main.rs lines 495-555), with the filesystem
and date collaborators factored out: `size` is the metadata file size,
`mtime_secs` is the second-truncated modification time, `last_modified_str`
is the `httpdate::fmt_http_date` rendering of it, and `content` is the file's
bytes.  The two header buffers repeat the identical `format!` call the source
makes twice. -/
def generate_file_metadata (mime_type_str : String) (size : Nat)
    (mtime_secs : Nat) (last_modified_str : String) (content : List Nat) :
    FileMetadata :=
  let etag := stringBytes "W/\"" ++ (natToBytes size ++ (stringBytes "-" ++
    (natToBytes mtime_secs ++ stringBytes "\"")))
  let actual_size := content.length
  let headers := stringBytes "HTTP/1.1 200 OK\r\nContent-Type: " ++
    (stringBytes mime_type_str ++ (stringBytes "\r\nContent-Length: " ++
    (natToBytes actual_size ++ (stringBytes "\r\nLast-Modified: " ++
    (stringBytes last_modified_str ++ (stringBytes "\r\nETag: " ++
    (etag ++ stringBytes "\r\nCache-Control: public, max-age=3600\r\nX-Content-Type-Options: nosniff\r\nConnection: keep-alive\r\n\r\n")))))))
  let headers_only := stringBytes "HTTP/1.1 200 OK\r\nContent-Type: " ++
    (stringBytes mime_type_str ++ (stringBytes "\r\nContent-Length: " ++
    (natToBytes actual_size ++ (stringBytes "\r\nLast-Modified: " ++
    (stringBytes last_modified_str ++ (stringBytes "\r\nETag: " ++
    (etag ++ stringBytes "\r\nCache-Control: public, max-age=3600\r\nX-Content-Type-Options: nosniff\r\nConnection: keep-alive\r\n\r\n")))))))
  let complete_response := headers ++ content
  let not_modified_response := stringBytes "HTTP/1.1 304 Not Modified\r\nETag: " ++
    (etag ++ stringBytes "\r\nCache-Control: public, max-age=3600\r\nConnection: keep-alive\r\n\r\n")
  { complete_response := complete_response
    headers_only := headers_only
    not_modified_response := not_modified_response
    etag := etag
    last_modified_timestamp := mtime_secs }

/-- The `FileMetadata` → `CacheEntry` conversion performed in
`discover_files_recursive` (src/main.rs lines 474-481). -/
def toCacheEntry (fm : FileMetadata) : CacheEntry :=
  { complete_response := fm.complete_response
    headers_only := fm.headers_only
    not_modified_response := fm.not_modified_response
    etag := fm.etag
    last_modified_timestamp := fm.last_modified_timestamp }

/- ---------------------------------------------------------------------
   Response templates (HeaderTemplates, src/main.rs lines 209-274)
--------------------------------------------------------------------- -/

/-- `HeaderTemplates::not_found`. -/
def not_found_tpl : List Nat :=
  stringBytes "HTTP/1.1 404 Not Found\r\nContent-Type: text/plain\r\nContent-Length: 14\r\nX-Content-Type-Options: nosniff\r\nConnection: keep-alive\r\n\r\nFile not found"

/-- `HeaderTemplates::method_not_allowed`. -/
def method_not_allowed_tpl : List Nat :=
  stringBytes "HTTP/1.1 405 Method Not Allowed\r\nContent-Type: text/plain\r\nContent-Length: 18\r\nX-Content-Type-Options: nosniff\r\nConnection: keep-alive\r\n\r\nMethod not allowed"

/-- `HeaderTemplates::request_too_large`. -/
def request_too_large_tpl : List Nat :=
  stringBytes "HTTP/1.1 413 Request Entity Too Large\r\nContent-Type: text/plain\r\nContent-Length: 17\r\nX-Content-Type-Options: nosniff\r\nConnection: keep-alive\r\n\r\nRequest too large"

/-- `HeaderTemplates::bad_request`. -/
def bad_request_tpl : List Nat :=
  stringBytes "HTTP/1.1 400 Bad Request\r\nContent-Type: text/plain\r\nContent-Length: 17\r\nX-Content-Type-Options: nosniff\r\nConnection: keep-alive\r\n\r\nMalformed request"

/-- `HeaderTemplates::create_health_response` (src/main.rs lines 245-258):
returns `(complete_response, headers_only)`. -/
def create_health_response : List Nat × List Nat :=
  let body := stringBytes "\x7b\"status\":\"healthy\",\"timestamp\":\"0\"\x7d"
  let headers := stringBytes "HTTP/1.1 200 OK\r\nContent-Type: application/json\r\nContent-Length: " ++
    (natToBytes body.length ++
     stringBytes "\r\nX-Content-Type-Options: nosniff\r\nConnection: keep-alive\r\n\r\n")
  (headers ++ body, headers)

/-- `HeaderTemplates::create_ready_response` (src/main.rs lines 260-273). -/
def create_ready_response : List Nat × List Nat :=
  let body := stringBytes "\x7b\"status\":\"ready\",\"timestamp\":\"0\"\x7d"
  let headers := stringBytes "HTTP/1.1 200 OK\r\nContent-Type: application/json\r\nContent-Length: " ++
    (natToBytes body.length ++
     stringBytes "\r\nX-Content-Type-Options: nosniff\r\nConnection: keep-alive\r\n\r\n")
  (headers ++ body, headers)

/-- `HeaderTemplates::health_complete`. -/
def health_complete : List Nat := create_health_response.1

/-- `HeaderTemplates::health_headers_only`. -/
def health_headers_only : List Nat := create_health_response.2

/-- `HeaderTemplates::ready_complete`. -/
def ready_complete : List Nat := create_ready_response.1

/-- `HeaderTemplates::ready_headers_only`. -/
def ready_headers_only : List Nat := create_ready_response.2

/- ---------------------------------------------------------------------
   Request dispatch: handle_request (src/main.rs lines 754-839)
--------------------------------------------------------------------- -/

/-- The unconditional tail of `handle_request` for a cache hit: HEAD gets the
pre-generated headers, GET the complete response (src/main.rs lines 823-831). -/
def serve_entry (entry : CacheEntry) (is_head : Bool) : List Nat :=
  if is_head then entry.headers_only else entry.complete_response

/-- Rust `slice::windows(n).any(|w| w == sub)`: some length-`n` contiguous
window of `l` equals `sub` (`n = sub.length ≥ 1` at every call site; windows of
a list shorter than `n` do not exist, and `take` of a short list can never
equal `sub`, so the extra tail positions are vacuously false). -/
def windows_any : List Nat → List Nat → Bool
  | [], _ => false
  | b :: rest, sub => ((b :: rest).take sub.length == sub) || windows_any rest sub

/-- The `If-None-Match` stage of `handle_request` (src/main.rs lines 810-821):
`*` or a window of the client bytes equal to the entry's full ETag bytes picks
the pre-generated 304; anything else falls through to `serve_entry`. -/
def inm_step (entry : CacheEntry) (is_head : Bool)
    (if_none_match : Option (List Nat)) : List Nat :=
  match if_none_match with
  | some client_etag_bytes =>
      if (client_etag_bytes == [42]) ||
         windows_any client_etag_bytes entry.etag then
        entry.not_modified_response
      else serve_entry entry is_head
  | none => serve_entry entry is_head

/-- The cache-hit branch of `handle_request` (src/main.rs lines 794-831).
`pf` is the `str::from_utf8` + `httpdate::parse_http_date` collaborator: the
`If-Modified-Since` value is examined first, and a parse success with
`entry.last_modified_timestamp <= client_time` short-circuits to the 304
buffer; otherwise control falls through to the `If-None-Match` stage. -/
def handle_request_entry (pf : List Nat → Option Nat) (entry : CacheEntry)
    (is_head : Bool) (if_modified_since if_none_match : Option (List Nat)) :
    List Nat :=
  match if_modified_since with
  | some if_modified_since_bytes =>
      match pf if_modified_since_bytes with
      | some client_time =>
          if entry.last_modified_timestamp ≤ client_time then
            entry.not_modified_response
          else inm_step entry is_head if_none_match
      | none => inm_step entry is_head if_none_match
  | none => inm_step entry is_head if_none_match

/-- `handle_request` (src/main.rs lines 754-839), as the bytes written back:
`/health` and `/ready` short-circuit to the fixed templates before any cache
or conditional-header work; other paths go through `PathTrie.get`, a miss
producing the 404 template. -/
def handle_request (pf : List Nat → Option Nat) (trie : PathTrie)
    (path : List Nat) (is_head : Bool)
    (if_modified_since if_none_match : Option (List Nat)) : List Nat :=
  if path = stringBytes "/health" then
    if is_head then health_headers_only else health_complete
  else if path = stringBytes "/ready" then
    if is_head then ready_headers_only else ready_complete
  else
    match trie.get path with
    | some cache_entry =>
        handle_request_entry pf cache_entry is_head if_modified_since
          if_none_match
    | none => not_found_tpl

/- ---------------------------------------------------------------------
   Byte-level header helpers (src/main.rs lines 276-389)
--------------------------------------------------------------------- -/

/-- `u8::to_ascii_lowercase`. -/
def asciiLower (b : Nat) : Nat :=
  if 65 ≤ b ∧ b ≤ 90 then b + 32 else b

/-- The per-byte test of `header_starts_with` / `header_contains`: bytes match
when equal directly or after ASCII lowercasing. -/
def ciEq (h p : Nat) : Bool :=
  (h == p) || (asciiLower h == asciiLower p)

/-- Case-insensitive leading match of `pat` against `line` (the indexed loop
body of `header_starts_with`); an exhausted `line` with `pat` remaining fails,
exactly as the length guard in the source does. -/
def ciStarts : List Nat → List Nat → Bool
  | _, [] => true
  | [], _ :: _ => false
  | h :: hs, p :: ps => ciEq h p && ciStarts hs ps

/-- `header_starts_with` (src/main.rs lines 277-291). -/
def header_starts_with (header_line pat : List Nat) : Bool :=
  if header_line.length < pat.length then false
  else ciStarts header_line pat

/-- The scanning loop of `header_contains`: try a case-insensitive match at
every start position (positions too close to the end fail inside `ciStarts`). -/
def hcGo : List Nat → List Nat → Bool
  | [], _ => false
  | b :: rest, sub => ciStarts (b :: rest) sub || hcGo rest sub

/-- `header_contains` (src/main.rs lines 294-330). -/
def header_contains (header_line substring : List Nat) : Bool :=
  if substring.isEmpty then true
  else if header_line.length < substring.length then false
  else hcGo header_line substring

/-- The trailing-whitespace class of `trim_header_line`. -/
def isTrailWs (b : Nat) : Bool :=
  b == 13 || b == 10 || b == 32 || b == 9

/-- The leading-whitespace class of `trim_header_line` and
`extract_header_value`. -/
def isLeadWs (b : Nat) : Bool :=
  b == 32 || b == 9

/-- `trim_header_line` (src/main.rs lines 346-367): drop trailing
CR/LF/space/tab, then leading space/tab. -/
def trim_header_line (line : List Nat) : List Nat :=
  ((line.reverse.dropWhile isTrailWs).reverse).dropWhile isLeadWs

/-- `extract_header_value` (src/main.rs lines 370-389): drop the header name,
skip space/tab, and fail when nothing (or only whitespace) remains. -/
def extract_header_value (line header_name : List Nat) : Option (List Nat) :=
  if line.length ≤ header_name.length then none
  else
    let value_bytes := line.drop header_name.length
    let v := value_bytes.dropWhile isLeadWs
    if v.isEmpty then none else some v

/- ---------------------------------------------------------------------
   Request-line reading and parsing
   (src/main.rs lines 394-417 and 650-683)
--------------------------------------------------------------------- -/

/-- `MAX_REQUEST_SIZE` (src/main.rs line 14). -/
def MAX_REQUEST_SIZE : Nat := 8192

/-- Outcome of the `timeout(.., reader.read_line(..))` match in
`handle_connection_inner`: connection closed / timeout / read error, or a
line of `size` bytes whose content is `content`. -/
inductive ReadResult where
  | closed : ReadResult
  | timedOut : ReadResult
  | readError : ReadResult
  | line (size : Nat) (content : List Nat) : ReadResult
deriving DecidableEq, Repr

/-- What the connection loop does with one request-line read
(src/main.rs lines 650-664). -/
inductive ReqLineStep where
  | closeQuiet : ReqLineStep
  | respondClose (response : List Nat) : ReqLineStep
  | proceed (content : List Nat) : ReqLineStep
deriving DecidableEq, Repr

/-- The request-line size gate of `handle_connection_inner`
(src/main.rs lines 650-664): closed/timeout/error break quietly; a line longer
than `MAX_REQUEST_SIZE` gets the 413 template and the loop breaks; anything
else proceeds to parsing. -/
def request_line_step : ReadResult → ReqLineStep
  | .closed => .closeQuiet
  | .timedOut => .closeQuiet
  | .readError => .closeQuiet
  | .line size content =>
      if size > MAX_REQUEST_SIZE then .respondClose request_too_large_tpl
      else .proceed content

/-- Rust `slice::split(|&b| b == sep)`: separators delimit (possibly empty)
chunks, with `n` separators giving `n + 1` chunks. -/
def split_byte (sep : Nat) : List Nat → List (List Nat)
  | [] => [[]]
  | b :: rest =>
      let r := split_byte sep rest
      if b = sep then [] :: r
      else
        match r with
        | h :: t => (b :: h) :: t
        | [] => [[b]]

/-- Continuation-byte test for UTF-8 validation (`0x80..=0xBF`). -/
def isCont (b : Nat) : Bool :=
  128 ≤ b && b ≤ 191

/-- `str::from_utf8(..).is_ok()`: standard UTF-8 validity of a byte string
(RFC 3629 table, as the Rust standard library checks it). -/
def isValidUtf8 : List Nat → Bool
  | [] => true
  | b :: rest =>
      if b ≤ 127 then isValidUtf8 rest
      else if 194 ≤ b && b ≤ 223 then
        match rest with
        | c :: r => isCont c && isValidUtf8 r
        | [] => false
      else if b == 224 then
        match rest with
        | c :: d :: r => (160 ≤ c && c ≤ 191) && isCont d && isValidUtf8 r
        | _ => false
      else if (225 ≤ b && b ≤ 236) || b == 238 || b == 239 then
        match rest with
        | c :: d :: r => isCont c && isCont d && isValidUtf8 r
        | _ => false
      else if b == 237 then
        match rest with
        | c :: d :: r => (128 ≤ c && c ≤ 159) && isCont d && isValidUtf8 r
        | _ => false
      else if b == 240 then
        match rest with
        | c :: d :: e :: r =>
            (144 ≤ c && c ≤ 191) && isCont d && isCont e && isValidUtf8 r
        | _ => false
      else if 241 ≤ b && b ≤ 243 then
        match rest with
        | c :: d :: e :: r =>
            isCont c && isCont d && isCont e && isValidUtf8 r
        | _ => false
      else if b == 244 then
        match rest with
        | c :: d :: e :: r =>
            (128 ≤ c && c ≤ 143) && isCont d && isCont e && isValidUtf8 r
        | _ => false
      else false

/-- `parse_request_line_fast` (src/main.rs lines 395-417): split on single
spaces, discard empty tokens, take exactly three tokens (any fourth token
fails), require the path and version to be valid UTF-8 (`&str` conversion),
and re-check non-emptiness as the source does. -/
def parse_request_line_fast (request : List Nat) :
    Option (List Nat × List Nat × List Nat) :=
  let parts := (split_byte 32 request).filter fun part => !part.isEmpty
  match parts with
  | method :: path_bytes :: version_bytes :: rest =>
      if rest.isEmpty then
        if isValidUtf8 path_bytes && isValidUtf8 version_bytes then
          if method.isEmpty || path_bytes.isEmpty || version_bytes.isEmpty then
            none
          else some (method, path_bytes, version_bytes)
        else none
      else none
  | _ => none

/-- What `handle_connection_inner` does right after a request line was read
and trimmed (src/main.rs lines 670-683): a parse failure answers with the 400
template and breaks; a method other than GET/HEAD answers 405 and breaks. -/
inductive ParseStep where
  | respondClose (response : List Nat) : ParseStep
  | handle (method path version : List Nat) : ParseStep
deriving DecidableEq, Repr

/-- The parse-and-method gate of `handle_connection_inner`
(src/main.rs lines 670-683). -/
def request_dispatch (request_bytes : List Nat) : ParseStep :=
  match parse_request_line_fast request_bytes with
  | none => .respondClose bad_request_tpl
  | some (method, path, version) =>
      if method ≠ stringBytes "GET" ∧ method ≠ stringBytes "HEAD" then
        .respondClose method_not_allowed_tpl
      else .handle method path version

/- ---------------------------------------------------------------------
   Header loop and keep-alive (src/main.rs lines 686-725)
--------------------------------------------------------------------- -/

/-- The header loop of `handle_connection_inner` (src/main.rs lines 686-725)
over the sequence of raw lines delivered by `read_line_bytes` (an exhausted
list models `Ok(0)`, connection closed).  State: the keep-alive flag and the
captured `If-Modified-Since` / `If-None-Match` values.  An empty line, a bare
CRLF, or a line that trims to nothing ends the loop. -/
def process_header_lines (version : String) :
    List (List Nat) → Bool → Option (List Nat) → Option (List Nat) →
    Bool × Option (List Nat) × Option (List Nat)
  | [], keep_alive, ims, inm => (keep_alive, ims, inm)
  | l :: rest, keep_alive, ims, inm =>
      if l = [] ∨ l = stringBytes "\r\n" then (keep_alive, ims, inm)
      else
        let line := trim_header_line l
        if line = [] then (keep_alive, ims, inm)
        else if header_starts_with line (stringBytes "connection:") then
          let connection_close_requested := header_contains line (stringBytes "close")
          let ka := !connection_close_requested &&
            ((version == "HTTP/1.1") || header_contains line (stringBytes "keep-alive"))
          process_header_lines version rest ka ims inm
        else if header_starts_with line (stringBytes "if-modified-since:") then
          match extract_header_value line (stringBytes "if-modified-since:") with
          | some value => process_header_lines version rest keep_alive (some value) inm
          | none => process_header_lines version rest keep_alive ims inm
        else if header_starts_with line (stringBytes "if-none-match:") then
          match extract_header_value line (stringBytes "if-none-match:") with
          | some value => process_header_lines version rest keep_alive ims (some value)
          | none => process_header_lines version rest keep_alive ims inm
        else process_header_lines version rest keep_alive ims inm

/-- Header parsing as entered from `handle_connection_inner`: the keep-alive
flag starts as `version == "HTTP/1.1"` (src/main.rs line 687) and no
conditional headers are captured yet. -/
def parse_request_headers (version : String) (lines : List (List Nat)) :
    Bool × Option (List Nat) × Option (List Nat) :=
  process_header_lines version lines (version == "HTTP/1.1") none none

/- ---------------------------------------------------------------------
   The spec's ETag matcher, for comparison with the code's
--------------------------------------------------------------------- -/

/-- Whitespace trim on both ends of a byte string (the spec's
"trim whitespace" around each comma-separated element). -/
def trimWsBytes (s : List Nat) : List Nat :=
  ((s.dropWhile isTrailWs).reverse.dropWhile isTrailWs).reverse

/-- Strip one leading weak marker `W/` and all surrounding double quotes from
an ETag, as the spec describes (and as the repository's own
`cache_tests.rs` simulation does with `trim_start_matches("W/")` and
`trim_matches(Char.ofNat 34)`). -/
def stripWeakQuotes (s : List Nat) : List Nat :=
  let s1 := if s.take 2 = stringBytes "W/" then s.drop 2 else s
  ((s1.dropWhile (· == 34)).reverse.dropWhile (· == 34)).reverse

/-- Modelled from the spec: the `If-None-Match` comparison the specification
describes (src/main.rs implements a different, substring-based check).  Split
the client value on commas, trim whitespace, strip `W/` and quotes from both
sides, and accept on exact equality with any listed value. -/
def spec_etag_match (client etag : List Nat) : Bool :=
  ((split_byte 44 client).map trimWsBytes).any fun e =>
    stripWeakQuotes e = stripWeakQuotes etag

/- ---------------------------------------------------------------------
   Helper lemmas
--------------------------------------------------------------------- -/

@[simp] lemma toCacheEntry_complete (fm : FileMetadata) :
    (toCacheEntry fm).complete_response = fm.complete_response := rfl

@[simp] lemma toCacheEntry_ho (fm : FileMetadata) :
    (toCacheEntry fm).headers_only = fm.headers_only := rfl

@[simp] lemma toCacheEntry_nm (fm : FileMetadata) :
    (toCacheEntry fm).not_modified_response = fm.not_modified_response := rfl

@[simp] lemma toCacheEntry_etag (fm : FileMetadata) :
    (toCacheEntry fm).etag = fm.etag := rfl

@[simp] lemma toCacheEntry_lm (fm : FileMetadata) :
    (toCacheEntry fm).last_modified_timestamp = fm.last_modified_timestamp := rfl

@[simp] lemma gfm_lm (m : String) (sz mt : Nat) (ls : String) (c : List Nat) :
    (generate_file_metadata m sz mt ls c).last_modified_timestamp = mt := rfl

/-- Byte 9 of the pre-generated 304 buffer is the digit 3 of the status 304. -/
lemma gfm_nm_byte9 (m : String) (sz mt : Nat) (ls : String) (c : List Nat) :
    ((generate_file_metadata m sz mt ls c).not_modified_response)[9]? = some 51 := by
  simp only [generate_file_metadata]
  rw [List.getElem?_append_left (by decide)]
  decide

/-- Byte 9 of the pre-generated headers is the digit 2 of the status 200. -/
lemma gfm_ho_byte9 (m : String) (sz mt : Nat) (ls : String) (c : List Nat) :
    ((generate_file_metadata m sz mt ls c).headers_only)[9]? = some 50 := by
  simp only [generate_file_metadata]
  rw [List.getElem?_append_left (by decide)]
  decide

/-- Byte 9 of the complete 200 response is the digit 2 of the status 200. -/
lemma gfm_cr_byte9 (m : String) (sz mt : Nat) (ls : String) (c : List Nat) :
    ((generate_file_metadata m sz mt ls c).complete_response)[9]? = some 50 := by
  simp only [generate_file_metadata]
  rw [List.getElem?_append_left (by
    have h31 : (stringBytes "HTTP/1.1 200 OK\r\nContent-Type: ").length = 31 := by decide
    simp [List.length_append, h31]; omega)]
  rw [List.getElem?_append_left (by decide)]
  decide

/-- A builder entry's 304 buffer differs from its headers-only buffer. -/
lemma gfm_nm_ne_ho (m : String) (sz mt : Nat) (ls : String) (c : List Nat) :
    (generate_file_metadata m sz mt ls c).not_modified_response ≠
      (generate_file_metadata m sz mt ls c).headers_only := by
  intro h
  have h9 := congrArg (fun l => l[9]?) h
  simp only [gfm_nm_byte9, gfm_ho_byte9] at h9
  exact absurd h9 (by decide)

/-- A builder entry's 304 buffer differs from its complete 200 response. -/
lemma gfm_nm_ne_cr (m : String) (sz mt : Nat) (ls : String) (c : List Nat) :
    (generate_file_metadata m sz mt ls c).not_modified_response ≠
      (generate_file_metadata m sz mt ls c).complete_response := by
  intro h
  have h9 := congrArg (fun l => l[9]?) h
  simp only [gfm_nm_byte9, gfm_cr_byte9] at h9
  exact absurd h9 (by decide)

/-- A builder entry's 304 buffer differs from whatever the unconditional
branch serves (headers for HEAD, complete response for GET). -/
lemma gfm_nm_ne_serve (m : String) (sz mt : Nat) (ls : String) (c : List Nat)
    (is_head : Bool) :
    (generate_file_metadata m sz mt ls c).not_modified_response ≠
      serve_entry (toCacheEntry (generate_file_metadata m sz mt ls c)) is_head := by
  cases is_head
  · simpa [serve_entry] using gfm_nm_ne_cr m sz mt ls c
  · simpa [serve_entry] using gfm_nm_ne_ho m sz mt ls c

/- ---------------------------------------------------------------------
   A concrete builder entry used by the concrete evaluations below
--------------------------------------------------------------------- -/

/-- A concrete cache entry exactly as the builder would produce it for a
37-byte `index.html` with second-truncated mtime 123: its ETag is
`W/"37-123"`. -/
def sample_entry : CacheEntry :=
  toCacheEntry (generate_file_metadata "text/html; charset=utf-8" 37 123
    "Thu, 01 Jan 1970 00:02:03 GMT" (stringBytes "<html><body>Hello World!</body></html>"))

/-- The cache that results from inserting the root `index.html` entry, as
`discover_files_recursive` does for a content root holding `index.html`. -/
def root_index_trie : PathTrie :=
  PathTrie.new.insert (stringBytes "/index.html") sample_entry

/- ---------------------------------------------------------------------
   Claim theorems
--------------------------------------------------------------------- -/

set_option maxRecDepth 16384 in
/-- C1: the claim says that when both `If-None-Match` and `If-Modified-Since`
are present the verdict is decided solely by `If-None-Match`.  The code
evaluates `If-Modified-Since` first: here the client's parsed timestamp equals
the entry's last-modified second, the `If-None-Match` value `W/"999-888"`
matches neither `*` nor the entry's ETag `W/"37-123"`, and the server still
answers with the pre-generated 304 buffer (which differs from both 200
buffers), contradicting the claim. -/
theorem c1_ims_overrides_inm :
    handle_request_entry (fun _ => some 123) sample_entry false
        (some (stringBytes "Thu, 01 Jan 1970 00:02:03 GMT"))
        (some (stringBytes "W/\"999-888\"")) = sample_entry.not_modified_response ∧
    (stringBytes "W/\"999-888\"" == [42]) = false ∧
    windows_any (stringBytes "W/\"999-888\"") sample_entry.etag = false ∧
    sample_entry.not_modified_response ≠ sample_entry.complete_response ∧
    sample_entry.not_modified_response ≠ sample_entry.headers_only := by
  decide

set_option maxRecDepth 16384 in
/-- C3: the claim (and the spec) describe comma-splitting plus `W/`/quote
stripping, under which the client value `37-123` matches the entry ETag
`W/"37-123"` and must yield 304.  The code instead looks for the full ETag
bytes as a contiguous substring of the client value, finds none, and serves
the complete 200 response. -/
theorem c3_substring_not_spec_match :
    spec_etag_match (stringBytes "37-123") sample_entry.etag = true ∧
    handle_request_entry (fun _ => none) sample_entry false none
        (some (stringBytes "37-123")) = sample_entry.complete_response ∧
    sample_entry.complete_response ≠ sample_entry.not_modified_response := by
  decide

set_option maxRecDepth 16384 in
/-- C2: the claim says that once `/index.html` is cached, looking up `/`
returns the same entry and `GET /` serves its body.  In the code the alias for
the root index file is stored under the FNV hash of the empty string
(`path[..0]`), while a lookup of `/` hashes the single byte `/` (the trailing
slash is only stripped when `end_pos > 1`), so the lookup misses on both maps
and `GET /` produces the 404 template. -/
theorem c2_root_lookup_misses :
    assocFind (normalize_path_hash (stringBytes "/index.html")).1
        root_index_trie.exact_matches = some sample_entry ∧
    assocFind (normalize_path_hash []).1 root_index_trie.index_entries =
        some sample_entry ∧
    PathTrie.get root_index_trie (stringBytes "/") = none ∧
    handle_request (fun _ => none) root_index_trie (stringBytes "/") false
        none none = not_found_tpl := by
  decide

/-- C5: for every file entry the builder produces, the complete GET response
is exactly the headers-only buffer followed by the file content (so the HEAD
headers are byte-identical to the GET headers), and a HEAD request with no
conditional headers is answered with exactly that headers-only buffer. -/
theorem c5_head_get_headers_identical (pf : List Nat → Option Nat)
    (mime : String) (size mtime : Nat) (lm : String) (content : List Nat) :
    (generate_file_metadata mime size mtime lm content).complete_response =
      (generate_file_metadata mime size mtime lm content).headers_only ++ content ∧
    handle_request_entry pf
        (toCacheEntry (generate_file_metadata mime size mtime lm content))
        true none none =
      (generate_file_metadata mime size mtime lm content).headers_only :=
  ⟨rfl, rfl⟩

/-- C10: requests for the literal paths `/health` and `/ready` are answered
with the fixed precomputed JSON templates (headers only for HEAD), for every
cache and every `If-Modified-Since` / `If-None-Match` combination — the
conditional evaluator is never consulted and the response always carries
status 200. -/
theorem c10_health_ready_fixed (pf : List Nat → Option Nat) (trie : PathTrie)
    (is_head : Bool) (ims inm : Option (List Nat)) :
    handle_request pf trie (stringBytes "/health") is_head ims inm =
      (if is_head then health_headers_only else health_complete) ∧
    handle_request pf trie (stringBytes "/ready") is_head ims inm =
      (if is_head then ready_headers_only else ready_complete) ∧
    health_complete.take 12 = stringBytes "HTTP/1.1 200" ∧
    ready_complete.take 12 = stringBytes "HTTP/1.1 200" ∧
    health_headers_only.take 12 = stringBytes "HTTP/1.1 200" ∧
    ready_headers_only.take 12 = stringBytes "HTTP/1.1 200" :=
  ⟨rfl, rfl, by decide, by decide, by decide, by decide⟩

/-- C4: with only `If-Modified-Since` present, a builder entry is answered
with its pre-generated 304 buffer exactly when the collaborator parses the
header value to a timestamp at least the entry's second-truncated
last-modified time; in every other case (strictly newer entry or unparseable
date) the unconditional response is served. -/
theorem c4_ims_only_verdict (pf : List Nat → Option Nat) (mime : String)
    (size mtime : Nat) (lm : String) (content : List Nat) (is_head : Bool)
    (b : List Nat) :
    (handle_request_entry pf
        (toCacheEntry (generate_file_metadata mime size mtime lm content))
        is_head (some b) none =
          (generate_file_metadata mime size mtime lm content).not_modified_response ↔
      ∃ t, pf b = some t ∧ mtime ≤ t) ∧
    (handle_request_entry pf
        (toCacheEntry (generate_file_metadata mime size mtime lm content))
        is_head (some b) none =
          (generate_file_metadata mime size mtime lm content).not_modified_response ∨
     handle_request_entry pf
        (toCacheEntry (generate_file_metadata mime size mtime lm content))
        is_head (some b) none =
          serve_entry (toCacheEntry (generate_file_metadata mime size mtime lm content)) is_head) := by
  constructor
  · cases hpf : pf b with
    | none =>
        simp only [handle_request_entry, hpf, inm_step, toCacheEntry_nm]
        constructor
        · intro h
          exact absurd h.symm (gfm_nm_ne_serve mime size mtime lm content is_head)
        · rintro ⟨t, ht, -⟩
          exact Option.noConfusion ht
    | some t0 =>
        simp only [handle_request_entry, hpf, toCacheEntry_lm, gfm_lm, toCacheEntry_nm]
        by_cases hle : mtime ≤ t0
        · rw [if_pos hle]
          constructor
          · intro _
            exact ⟨t0, rfl, hle⟩
          · intro _
            rfl
        · rw [if_neg hle]
          simp only [inm_step]
          constructor
          · intro h
            exact absurd h.symm (gfm_nm_ne_serve mime size mtime lm content is_head)
          · rintro ⟨t, ht, hle2⟩
            injection ht with ht'
            exact absurd (ht' ▸ hle2) hle
  · cases hpf : pf b with
    | none =>
        simp only [handle_request_entry, hpf, inm_step]
        right
        trivial
    | some t0 =>
        simp only [handle_request_entry, hpf, toCacheEntry_lm, gfm_lm]
        by_cases hle : mtime ≤ t0
        · rw [if_pos hle]
          left
          trivial
        · rw [if_neg hle]
          simp only [inm_step]
          right
          trivial

/-- C7: for a non-empty request line, when splitting on single spaces and
discarding empty tokens yields anything but exactly three tokens, the parser
fails and the connection loop answers with the 400 template and closes. -/
theorem c7_bad_token_count (request : List Nat) (_hne : request ≠ [])
    (h3 : ((split_byte 32 request).filter (fun part => !part.isEmpty)).length ≠ 3) :
    parse_request_line_fast request = none ∧
    request_dispatch request = .respondClose bad_request_tpl := by
  have hp : parse_request_line_fast request = none := by
    simp only [parse_request_line_fast]
    generalize hg : (split_byte 32 request).filter (fun part => !part.isEmpty) = parts at h3 ⊢
    rcases parts with - | ⟨m, - | ⟨p, - | ⟨v, - | ⟨w, rest⟩⟩⟩⟩
    · rfl
    · rfl
    · rfl
    · simp at h3
    · simp
  refine ⟨hp, ?_⟩
  simp only [request_dispatch, hp]

/-- Witness for C7 at the two-token request line `GET /`. -/
theorem c7_witness :
    parse_request_line_fast (stringBytes "GET /") = none ∧
    request_dispatch (stringBytes "GET /") = .respondClose bad_request_tpl :=
  c7_bad_token_count (stringBytes "GET /") (by decide) (by decide)

/-- Without a `?`, the query scan runs to the end of the path. -/
lemma fqp_no_query (p : List Nat) (hp : 63 ∉ p) : find_query_pos p = p.length := by
  induction p with
  | nil => rfl
  | cons b rest ih =>
      have hb : ¬ b = 63 := fun e => hp (e ▸ List.mem_cons_self b rest)
      simp only [find_query_pos, if_neg hb, List.length_cons]
      rw [ih fun m => hp (List.mem_cons_of_mem b m)]

/-- The query scan stops at the first `?`, which sits right after `p` when
`p` itself is `?`-free. -/
lemma fqp_append (p q : List Nat) (hp : 63 ∉ p) :
    find_query_pos (p ++ 63 :: q) = p.length := by
  induction p with
  | nil => simp [find_query_pos]
  | cons b rest ih =>
      have hb : ¬ b = 63 := fun e => hp (e ▸ List.mem_cons_self b rest)
      simp only [List.cons_append, find_query_pos, if_neg hb, List.length_cons,
        List.append_eq]
      rw [ih fun m => hp (List.mem_cons_of_mem b m)]

/-- Appending `?q` to a `?`-free path leaves the normalized hash and the
directory-style flag unchanged. -/
lemma normalize_append_query (p q : List Nat) (hp : 63 ∉ p) :
    normalize_path_hash (p ++ 63 :: q) = normalize_path_hash p := by
  unfold normalize_path_hash
  dsimp only
  rw [fqp_append p q hp, fqp_no_query p hp]
  by_cases h1 : p.length > 1
  · have hgetD : (p ++ 63 :: q).getD (p.length - 1) 0 = p.getD (p.length - 1) 0 :=
      List.getD_append _ _ _ _ (by omega)
    rw [hgetD]
    by_cases h47 : p.getD (p.length - 1) 0 = 47
    · rw [if_pos ⟨h1, h47⟩, if_pos ⟨h1, h47⟩,
        List.take_append_of_le_length (by omega)]
    · rw [if_neg fun h => h47 h.2, if_neg fun h => h47 h.2,
        List.take_append_of_le_length (le_refl p.length), List.take_length]
  · rw [if_neg fun h => h1 h.1, if_neg fun h => h1 h.1,
      List.take_append_of_le_length (le_refl p.length), List.take_length]

/-- C9 (amended): for every path `p` other than the literal `/` that contains
no `?`, and every query suffix, looking up `p ++ "?" ++ q` in any lookup
index returns exactly what looking up `p` returns.  (For `p = "/"` the two
can differ, see the counterexample.) -/
theorem c9_query_insensitive (trie : PathTrie) (p q : List Nat)
    (hroot : p ≠ stringBytes "/") (hq : 63 ∉ p) :
    trie.get (p ++ 63 :: q) = trie.get p := by
  simp only [PathTrie.get]
  rw [normalize_append_query p q hq]
  have h1 : ¬ (p ++ 63 :: q) = stringBytes "/" := by
    intro h
    have hm : (63 : Nat) ∈ stringBytes "/" := h ▸ (by simp)
    exact absurd hm (by decide)
  cases hfind : assocFind (normalize_path_hash p).1 trie.exact_matches with
  | some e => rfl
  | none =>
      by_cases hd2 : (normalize_path_hash p).2 = true
      · rw [if_pos (Or.inl hd2), if_pos (Or.inl hd2)]
      · rw [if_neg fun h => h.elim hd2 h1, if_neg fun h => h.elim hd2 hroot]

/-- A cache built from a content root containing `6xkog2e/index.html`.  The
directory path `/6xkog2e` is an FNV-1a collision of `/` (both hash to
705468254), so the index alias is registered under the hash of `/`. -/
def c9_trie : PathTrie :=
  PathTrie.new.insert (stringBytes "/6xkog2e/index.html") sample_entry

set_option maxRecDepth 16384 in
/-- C9 counterexample at `p = "/"`, `q = ""`: in `PathTrie.get` only the
literal path `/` consults the index-alias table, so with an alias stored under
the hash of `/` (here via the colliding directory `/6xkog2e`) the lookup of
`/` finds an entry while the lookup of `/?` misses — the claim's equality
fails for `p = "/"` even though `p` contains no `?`. -/
theorem c9_root_query_differs :
    (63 ∉ stringBytes "/") ∧
    PathTrie.get c9_trie (stringBytes "/") = some sample_entry ∧
    PathTrie.get c9_trie (stringBytes "/" ++ 63 :: []) = none := by
  decide

/-- Witness for C9 at `p = "/a"`, `q = "v=1"` over the empty index. -/
theorem c9_witness :
    PathTrie.get PathTrie.new (stringBytes "/a" ++ 63 :: stringBytes "v=1") =
      PathTrie.get PathTrie.new (stringBytes "/a") :=
  c9_query_insensitive PathTrie.new (stringBytes "/a") (stringBytes "v=1")
    (by decide) (by decide)

/-- A raw header line whose trimmed form starts (case-insensitively) with
`connection:`. -/
def is_conn_line (l : List Nat) : Bool :=
  header_starts_with (trim_header_line l) (stringBytes "connection:")

/-- The keep-alive value the `Connection` branch of the header loop computes
from one connection header line (src/main.rs lines 710-712). -/
def conn_ka_update (version : String) (c : List Nat) : Bool :=
  !header_contains (trim_header_line c) (stringBytes "close") &&
    ((version == "HTTP/1.1") || header_contains (trim_header_line c) (stringBytes "keep-alive"))

/-- The keep-alive flag after the header loop is the initial flag when no
connection header line occurs, and otherwise is determined by the last
connection header line alone (each occurrence overwrites the flag without
reading it). -/
lemma ka_char (version : String) :
    ∀ (lines : List (List Nat)) (ka : Bool) (ims inm : Option (List Nat)),
      (∀ l ∈ lines, ¬ (l = [] ∨ l = stringBytes "\r\n") ∧ trim_header_line l ≠ []) →
      (process_header_lines version lines ka ims inm).1 =
        match (lines.filter is_conn_line).getLast? with
        | none => ka
        | some c => conn_ka_update version c := by
  intro lines
  induction lines with
  | nil => intro ka ims inm _; rfl
  | cons l rest ih =>
      intro ka ims inm h
      obtain ⟨hterm, htrim⟩ := h l (List.mem_cons_self l rest)
      have hrest : ∀ l' ∈ rest, ¬ (l' = [] ∨ l' = stringBytes "\r\n") ∧
          trim_header_line l' ≠ [] := fun l' m => h l' (List.mem_cons_of_mem l m)
      simp only [process_header_lines]
      rw [if_neg hterm, if_neg htrim]
      by_cases hconn : header_starts_with (trim_header_line l) (stringBytes "connection:") = true
      · rw [if_pos hconn, ih _ _ _ hrest]
        have hfc : (l :: rest).filter is_conn_line = l :: rest.filter is_conn_line :=
          List.filter_cons_of_pos hconn
        rw [hfc]
        cases hfr : rest.filter is_conn_line with
        | nil => rfl
        | cons y ys =>
            rw [List.getLast?_cons_cons]
            cases hlast : (y :: ys).getLast? with
            | none => simp at hlast
            | some z => rfl
      · have hfalse : is_conn_line l = false := Bool.eq_false_iff.mpr hconn
        have hfc : (l :: rest).filter is_conn_line = rest.filter is_conn_line := by
          simp [List.filter_cons, hfalse]
        rw [if_neg hconn]
        by_cases hims : header_starts_with (trim_header_line l) (stringBytes "if-modified-since:") = true
        · rw [if_pos hims]
          cases hex : extract_header_value (trim_header_line l) (stringBytes "if-modified-since:") with
          | some v => simp only [hex]; rw [ih _ _ _ hrest, hfc]
          | none => simp only [hex]; rw [ih _ _ _ hrest, hfc]
        · rw [if_neg hims]
          by_cases hinm : header_starts_with (trim_header_line l) (stringBytes "if-none-match:") = true
          · rw [if_pos hinm]
            cases hex : extract_header_value (trim_header_line l) (stringBytes "if-none-match:") with
            | some v => simp only [hex]; rw [ih _ _ _ hrest, hfc]
            | none => simp only [hex]; rw [ih _ _ _ hrest, hfc]
          · rw [if_neg hinm, ih _ _ _ hrest, hfc]

/-- C8 (amended): over header lines that do not terminate the loop early, the
keep-alive flag is `version == "HTTP/1.1"` when no `Connection` header occurs,
and otherwise is decided by the *last* `Connection` header line `c` alone:
keep-alive iff `c` does not contain `close` and (the version is HTTP/1.1 or
`c` contains `keep-alive`).  With at most one `Connection` header this is
exactly the claim's description. -/
theorem c8_keep_alive_last_conn (version : String) (lines : List (List Nat))
    (hgood : ∀ l ∈ lines, ¬ (l = [] ∨ l = stringBytes "\r\n") ∧
      trim_header_line l ≠ []) :
    (parse_request_headers version lines).1 =
      match (lines.filter is_conn_line).getLast? with
      | none => (version == "HTTP/1.1")
      | some c => conn_ka_update version c :=
  ka_char version lines (version == "HTTP/1.1") none none hgood

/-- Witness for C8: an HTTP/1.0 request with `Connection: keep-alive` ends up
with the keep-alive flag set. -/
theorem c8_witness :
    (parse_request_headers "HTTP/1.0" [stringBytes "Connection: keep-alive\r\n"]).1 = true := by
  have h := c8_keep_alive_last_conn "HTTP/1.0"
    [stringBytes "Connection: keep-alive\r\n"] (by decide)
  exact h.trans (by decide)

/-- C8 counterexample to the claim as literally stated: an HTTP/1.1 request
carrying a `Connection` header that contains `close` (followed by a second
`Connection: keep-alive` header) finishes header parsing with the keep-alive
flag *true*, because the last connection header overwrites the effect of the
first; the claim's "unless a Connection header containing close is present"
would require `false`. -/
theorem c8_close_then_keepalive :
    (parse_request_headers "HTTP/1.1"
        [stringBytes "Connection: close\r\n", stringBytes "Connection: keep-alive\r\n"]).1 = true ∧
    is_conn_line (stringBytes "Connection: close\r\n") = true ∧
    header_contains (trim_header_line (stringBytes "Connection: close\r\n"))
      (stringBytes "close") = true := by
  decide

/-- C6: a request line whose `read_line` byte count is exactly
`MAX_REQUEST_SIZE` (8192) proceeds to parsing, and any strictly longer line is
answered with the 413 template after which the connection loop breaks. -/
theorem c6_request_line_cap :
    (∀ content : List Nat,
      request_line_step (.line MAX_REQUEST_SIZE content) = .proceed content) ∧
    ∀ (n : Nat) (content : List Nat), MAX_REQUEST_SIZE < n →
      request_line_step (.line n content) = .respondClose request_too_large_tpl := by
  constructor
  · intro content
    simp [request_line_step]
  · intro n content h
    simp only [request_line_step]
    rw [if_pos h]

/-- Witness for C6 at the concrete sizes 8192 and 8193. -/
theorem c6_witness :
    request_line_step (.line 8192 (stringBytes "GET / HTTP/1.1\r\n")) =
      .proceed (stringBytes "GET / HTTP/1.1\r\n") ∧
    request_line_step (.line 8193 (stringBytes "GET / HTTP/1.1\r\n")) =
      .respondClose request_too_large_tpl :=
  ⟨c6_request_line_cap.1 (stringBytes "GET / HTTP/1.1\r\n"),
   c6_request_line_cap.2 8193 (stringBytes "GET / HTTP/1.1\r\n") (by decide)⟩
